import Mathlib

/-!
Shallow embedding of the Trace backend (src/main.py): the record extractor
(`_parse_json_objects` and its callers), the pure post-inference part of
`vision_parser_node`, the pure graph-rendering part of `rag_node`, and
`code_gen_node`.  Python strings are Lean `String`s, `json.loads` is modelled
by an executable recursive-descent JSON parser with CPython's recursion
limit (default 1000) made explicit, and Python exceptions are modelled with
`Except`: `PErr.decode` is `json.JSONDecodeError` (the only exception the
extractor catches), `PErr.recursion` is `RecursionError`, `PErr.typeErr` is
`TypeError`.
-/

/-- Python's substring prefix test, over character lists. -/
def strStartsWith : List Char → List Char → Bool
  | [], _ => true
  | _ :: _, [] => false
  | a :: as, b :: bs => a = b && strStartsWith as bs

/-- Helper for `pyIn`: does `sub` occur in the haystack at any position. -/
def pyInAux (sub : List Char) : List Char → Bool
  | [] => strStartsWith sub []
  | c :: cs => strStartsWith sub (c :: cs) || pyInAux sub cs

/-- Python's `sub in s` substring operator. -/
def pyIn (sub s : String) : Bool := pyInAux sub.data s.data

/-- The Prop-level substring relation: `sub` occurs contiguously in `s`. -/
def strContains (s sub : String) : Prop :=
  ∃ p q : List Char, s.data = p ++ sub.data ++ q

/-- Python `str.strip` / regex `\s` whitespace class (ASCII part, which is all
the repository's strings use): space, tab, newline, carriage return, vertical
tab, form feed. -/
def isPySpace (c : Char) : Bool :=
  c = ' ' || c = '\t' || c = '\n' || c = '\r' || c = Char.ofNat 11 || c = Char.ofNat 12

/-- Drop leading Python whitespace from a character list. -/
def dropLeadSpace : List Char → List Char
  | [] => []
  | c :: rest => if isPySpace c then dropLeadSpace rest else c :: rest

/-- Python `str.strip()`: drop leading and trailing whitespace. -/
def pyStripChars (cs : List Char) : List Char :=
  dropLeadSpace ((dropLeadSpace (dropLeadSpace cs).reverse).reverse)

/-- Python `str.lower()` (ASCII case folding, which is all the generated
identifiers exercise). -/
def lowerStr (s : String) : String := String.mk (s.data.map Char.toLower)

/-- Exceptions of the modelled Python code.  `decode` is
`json.JSONDecodeError`, `recursion` is `RecursionError` (raised by `json.loads`
on deeply nested input and never caught by the extractor), `typeErr` is
`TypeError` (raised by `in` / iteration on a non-container). -/
inductive PErr where
  | decode
  | recursion
  | typeErr
deriving DecidableEq

/-- Parsed JSON values (Python objects produced by `json.loads`).  Numbers
with a fraction or exponent are kept as their lexeme (no claim in this
development depends on float formatting). -/
inductive JValue where
  | null
  | bool (b : Bool)
  | int (n : Int)
  | float (lexeme : String)
  | str (s : String)
  | arr (elems : List JValue)
  | obj (fields : List (String × JValue))

/-- A JSON object as a Python dict: association list in insertion order,
keys unique (`objInsert` keeps the first position, last value). -/
abbrev JObj := List (String × JValue)

/-- Python repr of a str: quoted with apostrophes, or with double quotes when
the text holds an apostrophe but no double quote.  (Escape sequences inside
reprs are not modelled; no theorem below depends on them.) -/
def pyReprStr (s : String) : String :=
  if s.data.contains '\'' && !(s.data.contains '"') then "\"" ++ s ++ "\""
  else "'" ++ s ++ "'"

/-- Fuel-bounded Python repr of a parsed JSON value (the fuel bounds the
nesting depth; 64 covers every value any theorem below touches). -/
def pyReprF : Nat → JValue → String
  | 0, _ => ""
  | fuel + 1, v =>
    match v with
    | .null => "None"
    | .bool true => "True"
    | .bool false => "False"
    | .int n => toString n
    | .float lx => lx
    | .str s => pyReprStr s
    | .arr xs => "[" ++ String.intercalate ", " (xs.map (fun x => pyReprF fuel x)) ++ "]"
    | .obj kvs =>
        "\x7b" ++
          String.intercalate ", "
            (kvs.map (fun kv => pyReprStr kv.1 ++ ": " ++ pyReprF fuel kv.2)) ++ "\x7d"

/-- Python `str(v)` for a value parsed from JSON. -/
def pyStr : JValue → String
  | .null => "None"
  | .bool true => "True"
  | .bool false => "False"
  | .int n => toString n
  | .float lx => lx
  | .str s => s
  | .arr xs => pyReprF 64 (.arr xs)
  | .obj kvs => pyReprF 64 (.obj kvs)

/-- JSON whitespace accepted between tokens by `json.loads`. -/
def isJsonWs (c : Char) : Bool := c = ' ' || c = '\t' || c = '\n' || c = '\r'

/-- Skip JSON whitespace. -/
def skipWs : List Char → List Char
  | [] => []
  | c :: cs => if isJsonWs c then skipWs cs else c :: cs

/-- Hex digit value (case-insensitive, as in `\uXXXX` escapes). -/
def hexVal (c : Char) : Option Nat :=
  if c.isDigit then some (c.toNat - '0'.toNat)
  else
    let lc := c.toLower
    if 'a' ≤ lc && lc ≤ 'f' then some (lc.toNat - 'a'.toNat + 10) else none

/-- JSON string body parser (after the opening quote): returns the decoded
text and the input after the closing quote.  Python's strict mode rejects raw
control characters. -/
def parseJStringAux : List Char → List Char → Except PErr (String × List Char)
  | _, [] => .error .decode
  | acc, c :: cs =>
    if c = '"' then .ok (String.mk acc.reverse, cs)
    else if c = '\\' then
      match cs with
      | [] => .error .decode
      | e :: cs2 =>
        if e = '"' then parseJStringAux ('"' :: acc) cs2
        else if e = '\\' then parseJStringAux ('\\' :: acc) cs2
        else if e = '/' then parseJStringAux ('/' :: acc) cs2
        else if e = 'b' then parseJStringAux (Char.ofNat 8 :: acc) cs2
        else if e = 'f' then parseJStringAux (Char.ofNat 12 :: acc) cs2
        else if e = 'n' then parseJStringAux ('\n' :: acc) cs2
        else if e = 'r' then parseJStringAux ('\r' :: acc) cs2
        else if e = 't' then parseJStringAux ('\t' :: acc) cs2
        else if e = 'u' then
          match cs2 with
          | h1 :: h2 :: h3 :: h4 :: cs3 =>
            match hexVal h1, hexVal h2, hexVal h3, hexVal h4 with
            | some a, some b, some c3, some d =>
                parseJStringAux (Char.ofNat (((a * 16 + b) * 16 + c3) * 16 + d) :: acc) cs3
            | _, _, _, _ => .error .decode
          | _ => .error .decode
        else .error .decode
    else if c.toNat < 32 then .error .decode
    else parseJStringAux (c :: acc) cs

/-- Take a maximal run of decimal digits. -/
def takeDigits : List Char → List Char × List Char
  | [] => ([], [])
  | c :: cs =>
    if c.isDigit then
      let (ds, rest) := takeDigits cs
      (c :: ds, rest)
    else ([], c :: cs)

/-- Digits to a natural number. -/
def digitsToNatAux (acc : Nat) : List Char → Nat
  | [] => acc
  | c :: cs => digitsToNatAux (acc * 10 + (c.toNat - '0'.toNat)) cs

/-- JSON number parser, following CPython's `NUMBER_RE`:
`(-?(?:0|[1-9]\d*))(\.\d+)?([eE][-+]?\d+)?`.  Integral numbers become
`JValue.int`; a fraction or exponent yields `JValue.float` with the matched
lexeme. -/
def parseNumber (cs : List Char) : Except PErr (JValue × List Char) :=
  let (neg, cs1) := match cs with
    | '-' :: rest => (true, rest)
    | rest => (false, rest)
  match cs1 with
  | [] => .error .decode
  | d :: rest =>
    if !d.isDigit then .error .decode
    else
      let (intDs, rest2) :=
        if d = '0' then ([d], rest)
        else
          let (ds, r) := takeDigits rest
          (d :: ds, r)
      let (fracDs, rest3) := match rest2 with
        | '.' :: r =>
          match takeDigits r with
          | ([], _) => (([] : List Char), rest2)
          | (ds, r2) => ('.' :: ds, r2)
        | _ => ([], rest2)
      let (expDs, rest4) := match rest3 with
        | e :: r =>
          if e = 'e' || e = 'E' then
            match r with
            | s :: r2 =>
              if s = '+' || s = '-' then
                match takeDigits r2 with
                | ([], _) => (([] : List Char), rest3)
                | (ds, r3) => (e :: s :: ds, r3)
              else
                match takeDigits r with
                | ([], _) => (([] : List Char), rest3)
                | (ds, r3) => (e :: ds, r3)
            | [] => ([], rest3)
          else ([], rest3)
        | [] => ([], rest3)
      if fracDs.isEmpty && expDs.isEmpty then
        let n : Int := Int.ofNat (digitsToNatAux 0 intDs)
        .ok (.int (if neg then -n else n), rest2)
      else
        let lexeme := (if neg then ['-'] else []) ++ intDs ++ fracDs ++ expDs
        .ok (.float (String.mk lexeme), rest4)

/-- CPython's default recursion limit (`sys.getrecursionlimit()`), which the
C scanner of `json.loads` enforces per nesting level. -/
def reclimit : Nat := 1000

/-- Array elements parser: `pv` parses one value; the fuel bounds the number
of elements.  Expects the input to start at the first element. -/
def parseArrayAux (pv : List Char → Except PErr (JValue × List Char)) :
    Nat → List Char → List JValue → Except PErr (List JValue × List Char)
  | 0, _, _ => .error .decode
  | fuel + 1, cs, acc =>
    match pv cs with
    | .error e => .error e
    | .ok (v, rest) =>
      match skipWs rest with
      | ']' :: rest2 => .ok (acc ++ [v], rest2)
      | ',' :: rest2 => parseArrayAux pv fuel (skipWs rest2) (acc ++ [v])
      | _ => .error .decode

/-- Python dict insertion: a repeated key keeps its first position and takes
the last value. -/
def objInsert (kvs : JObj) (k : String) (v : JValue) : JObj :=
  if kvs.any (fun kv => kv.1 = k) then kvs.map (fun kv => if kv.1 = k then (k, v) else kv)
  else kvs ++ [(k, v)]

/-- Object members parser: expects the input to start at the first key's
opening quote. -/
def parseObjAux (pv : List Char → Except PErr (JValue × List Char)) :
    Nat → List Char → JObj → Except PErr (JObj × List Char)
  | 0, _, _ => .error .decode
  | fuel + 1, cs, acc =>
    match cs with
    | '"' :: cs1 =>
      match parseJStringAux [] cs1 with
      | .error e => .error e
      | .ok (k, rest) =>
        match skipWs rest with
        | ':' :: rest2 =>
          match pv (skipWs rest2) with
          | .error e => .error e
          | .ok (v, rest3) =>
            match skipWs rest3 with
            | '}' :: rest4 => .ok (objInsert acc k v, rest4)
            | ',' :: rest4 => parseObjAux pv fuel (skipWs rest4) (objInsert acc k v)
            | _ => .error .decode
        | _ => .error .decode
    | _ => .error .decode

/-- The JSON value parser (`json.loads`'s scanner).  `depth` counts container
nesting; opening a container at `reclimit` raises `RecursionError`, as
CPython's scanner does.  The fuel is structural (one unit per nesting level);
`json_loads` supplies more than the input length, which is always enough. -/
def parseValue : Nat → Nat → List Char → Except PErr (JValue × List Char)
  | 0, _, _ => .error .decode
  | fuel + 1, depth, cs =>
    match skipWs cs with
    | [] => .error .decode
    | c :: cs1 =>
      if c = '{' then
        if reclimit ≤ depth then .error .recursion
        else
          match skipWs cs1 with
          | '}' :: rest => .ok (.obj [], rest)
          | rest2 =>
            match parseObjAux (parseValue fuel (depth + 1)) (cs1.length + 1) rest2 [] with
            | .error e => .error e
            | .ok (kvs, rest3) => .ok (.obj kvs, rest3)
      else if c = '[' then
        if reclimit ≤ depth then .error .recursion
        else
          match skipWs cs1 with
          | ']' :: rest => .ok (.arr [], rest)
          | rest2 =>
            match parseArrayAux (parseValue fuel (depth + 1)) (cs1.length + 1) rest2 [] with
            | .error e => .error e
            | .ok (xs, rest3) => .ok (.arr xs, rest3)
      else if c = '"' then
        match parseJStringAux [] cs1 with
        | .error e => .error e
        | .ok (s, rest) => .ok (.str s, rest)
      else if strStartsWith "true".data (c :: cs1) then .ok (.bool true, cs1.drop 3)
      else if strStartsWith "false".data (c :: cs1) then .ok (.bool false, cs1.drop 4)
      else if strStartsWith "null".data (c :: cs1) then .ok (.null, cs1.drop 3)
      else if strStartsWith "NaN".data (c :: cs1) then .ok (.float "nan", cs1.drop 2)
      else if strStartsWith "Infinity".data (c :: cs1) then .ok (.float "inf", cs1.drop 7)
      else if strStartsWith "-Infinity".data (c :: cs1) then .ok (.float "-inf", cs1.drop 8)
      else if c.isDigit || c = '-' then parseNumber (c :: cs1)
      else .error .decode

/-- `json.loads`: parse one value, allow surrounding whitespace, reject
trailing content ("Extra data"). -/
def json_loads (s : String) : Except PErr JValue :=
  match parseValue (s.data.length + 2) 0 s.data with
  | .error e => .error e
  | .ok (v, rest) => if (skipWs rest).isEmpty then .ok v else .error .decode

/-- Source `strip_json_markdown`, leading-fence half: the single substitution
of `re.sub(r"^```(?:json)?\s*\n?", "", text, flags=re.IGNORECASE)`. -/
def stripLeadFence (cs : List Char) : List Char :=
  match cs with
  | '`' :: '`' :: '`' :: rest =>
    let rest2 := match rest with
      | a :: b :: c :: d :: rest3 =>
        if a.toLower = 'j' && b.toLower = 's' && c.toLower = 'o' && d.toLower = 'n'
        then rest3 else rest
      | _ => rest
    dropLeadSpace rest2
  | _ => cs

/-- Source `strip_json_markdown`, trailing-fence half: the single substitution
of `re.sub(r"\n?```\s*$", "", text)`. -/
def stripTrailFence (cs : List Char) : List Char :=
  match dropLeadSpace cs.reverse with
  | '`' :: '`' :: '`' :: rest =>
    (match rest with
     | '\n' :: rest3 => rest3
     | _ => rest).reverse
  | _ => cs

/-- Source `strip_json_markdown`: strip, remove one optional leading and one
optional trailing code fence, strip again. -/
def strip_json_markdown (text : String) : String :=
  String.mk (pyStripChars (stripTrailFence (stripLeadFence (pyStripChars text.data))))

/-- A dedup signature: the sorted `(key, str(value))` pairs restricted to the
required keys (`_parse_json_objects._accept`). -/
abbrev Sig := List (String × String)

/-- Code-point ordering on character lists (Python string comparison). -/
def charsLe : List Char → List Char → Bool
  | [], _ => true
  | _ :: _, [] => false
  | a :: as, b :: bs => if a = b then charsLe as bs else decide (a < b)

/-- Lexicographic ordering on `(key, value)` string pairs (Python tuple
comparison, as used by `sorted`). -/
def pairLe (a b : String × String) : Bool :=
  if a.1 = b.1 then charsLe a.2.data b.2.data else charsLe a.1.data b.1.data

/-- Sorted insertion for `pySortSig`. -/
def insertSorted (x : String × String) : Sig → Sig
  | [] => [x]
  | y :: ys => if pairLe x y then x :: y :: ys else y :: insertSorted x ys

/-- Python `sorted` on the signature pairs (the keys of one record are
distinct, so any correct sort agrees with Python's). -/
def pySortSig : Sig → Sig
  | [] => []
  | x :: xs => insertSorted x (pySortSig xs)

/-- `required_keys.issubset(item)`. -/
def requiredSubset (required : List String) (kvs : JObj) : Bool :=
  required.all (fun k => kvs.any (fun kv => kv.1 = k))

/-- `_accept`'s dedup key:
`tuple(sorted((k, str(v)) for k, v in item.items() if k in required_keys))`. -/
def sigOf (required : List String) (kvs : JObj) : Sig :=
  pySortSig ((kvs.filter (fun kv => required.contains kv.1)).map (fun kv => (kv.1, pyStr kv.2)))

/-- Attempt 1 of `_parse_json_objects`: fold `_accept` over the elements of a
parsed array, threading the result list and the `seen` signature set. -/
def acceptItems (required : List String) : List JValue → List JObj → List Sig → List JObj × List Sig
  | [], res, seen => (res, seen)
  | v :: vs, res, seen =>
    match v with
    | .obj kvs =>
      if requiredSubset required kvs && !(decide (sigOf required kvs ∈ seen)) then
        acceptItems required vs (res ++ [kvs]) (seen ++ [sigOf required kvs])
      else acceptItems required vs res seen
    | _ => acceptItems required vs res seen

/-- The balanced-block extraction of attempt 2 (`_parse_json_objects` lines
95-102): starting at a `\x7b`, walk forward counting every `\x7b` up and every
`\x7d` down — string contents are NOT exempt — and cut the block where the
depth returns to zero (or at end of input when it never does).  Returns the
block and the remaining input after it. -/
def takeBlock : List Char → Nat → List Char → List Char × List Char
  | [], _, acc => (acc.reverse, [])
  | c :: cs, depth, acc =>
    let d2 := if c = '{' then depth + 1 else if c = '}' then depth - 1 else depth
    if d2 = 0 then ((c :: acc).reverse, cs) else takeBlock cs d2 (c :: acc)

/-- Attempt 2 of `_parse_json_objects`: scan for `\x7b...\x7d` blocks, parse
each candidate, `_accept` the dicts.  A `json.JSONDecodeError` on a candidate
is swallowed; any other exception (in particular `RecursionError`) escapes,
as in the source, where only `JSONDecodeError` is caught.  The fuel is one
unit per consumed character; callers pass more than the input length. -/
def scanAccept (required : List String) : Nat → List Char → List JObj → List Sig → Except PErr (List JObj)
  | 0, _, res, _ => .ok res
  | fuel + 1, cs, res, seen =>
    match cs with
    | [] => .ok res
    | c :: cs1 =>
      if c = '{' then
        match json_loads (String.mk (takeBlock (c :: cs1) 0 []).1) with
        | .ok (.obj kvs) =>
          if requiredSubset required kvs && !(decide (sigOf required kvs ∈ seen)) then
            scanAccept required fuel (takeBlock (c :: cs1) 0 []).2 (res ++ [kvs])
              (seen ++ [sigOf required kvs])
          else scanAccept required fuel (takeBlock (c :: cs1) 0 []).2 res seen
        | .ok _ => scanAccept required fuel (takeBlock (c :: cs1) 0 []).2 res seen
        | .error .decode => scanAccept required fuel (takeBlock (c :: cs1) 0 []).2 res seen
        | .error e => .error e
      else scanAccept required fuel cs1 res seen

/-- `_parse_json_objects(raw, required_keys)`.  The `.error` results are the
exceptions the Python function lets escape (it catches only
`json.JSONDecodeError`).  In the single-dict branch the `seen` set is still
empty, so `_accept` reduces to the required-keys test. -/
def parse_json_objects (raw : String) (required : List String) : Except PErr (List JObj) :=
  match json_loads (strip_json_markdown raw) with
  | .ok (.arr items) =>
    if (acceptItems required items [] []).1.isEmpty then
      scanAccept required ((strip_json_markdown raw).data.length + 1) (strip_json_markdown raw).data
        (acceptItems required items [] []).1 (acceptItems required items [] []).2
    else .ok (acceptItems required items [] []).1
  | .ok (.obj kvs) =>
    if requiredSubset required kvs then .ok [kvs]
    else scanAccept required ((strip_json_markdown raw).data.length + 1)
      (strip_json_markdown raw).data [] []
  | .ok _ =>
    scanAccept required ((strip_json_markdown raw).data.length + 1)
      (strip_json_markdown raw).data [] []
  | .error .decode =>
    scanAccept required ((strip_json_markdown raw).data.length + 1)
      (strip_json_markdown raw).data [] []
  | .error e => .error e

/-- A parsed node (`rectangles` entry): `{"id", "label", "type", "bbox"}`. -/
structure Node where
  id : String
  label : String
  type : String
  bbox : JValue

/-- A parsed edge: `{"from", "to", "label"}` (`from` and `to` are Lean
keywords, hence `from_` / `to_`). -/
structure Edge where
  from_ : String
  to_ : String
  label : String

/-- Python `dict.get` / `[]` on a parsed JSON object (keys are unique). -/
def objGet (kvs : JObj) (k : String) : Option JValue :=
  (kvs.find? (fun kv => kv.1 == k)).map (fun kv => kv.2)

/-- `parse_entities_from_json`'s per-record mapping.  The required keys are
guaranteed present by the extractor, so the `.null` default is never taken
(in the source a missing key would be a `KeyError`). -/
def mkEntity (kvs : JObj) : Node :=
  { id := pyStr ((objGet kvs "id").getD .null)
    label := pyStr ((objGet kvs "label").getD .null)
    type := pyStr ((objGet kvs "type").getD .null)
    bbox := (objGet kvs "bbox").getD (.arr []) }

/-- Required keys of a node record. -/
def entity_keys : List String := ["id", "label", "type"]

/-- Required keys of an edge record. -/
def edge_keys : List String := ["from", "to"]

/-- `parse_entities_from_json(raw)`. -/
def parse_entities_from_json (raw : String) : Except PErr (List Node) :=
  (parse_json_objects raw entity_keys).map (fun l => l.map mkEntity)

/-- `parse_edges_from_json`'s per-record mapping (`str(it.get("label",
"connects"))`). -/
def mkEdgeRec (kvs : JObj) : Edge :=
  { from_ := pyStr ((objGet kvs "from").getD .null)
    to_ := pyStr ((objGet kvs "to").getD .null)
    label := match objGet kvs "label" with
             | some v => pyStr v
             | none => "connects" }

/-- `parse_edges_from_json(raw)`. -/
def parse_edges_from_json (raw : String) : Except PErr (List Edge) :=
  (parse_json_objects raw edge_keys).map (fun l => l.map mkEdgeRec)

/-- `get_next_step(node_id, state)`: the first edge leaving `nodeId`, as
`(target, label)`; `none` models the source's `(None, None)`. -/
def get_next_step (edges : List Edge) (nodeId : String) : Option (String × String) :=
  (edges.find? (fun ed => ed.from_ == nodeId)).map (fun ed => (ed.to_, ed.label))

/-- Is the mantissa of a float lexeme all zeros (so the float is falsy). -/
def floatIsZero (lx : String) : Bool :=
  let mant := lx.data.takeWhile (fun c => c ≠ 'e' && c ≠ 'E')
  let ds := mant.filter Char.isDigit
  !ds.isEmpty && ds.all (fun c => c = '0')

/-- Python truthiness of a parsed JSON value. -/
def pyFalsy : JValue → Bool
  | .null => true
  | .bool b => !b
  | .int n => n == 0
  | .float lx => floatIsZero lx
  | .str s => s.isEmpty
  | .arr xs => xs.isEmpty
  | .obj kvs => kvs.isEmpty

/-- Python's `needle in v` for a string needle: key membership on a dict,
element equality on a list, substring on a str, `TypeError` otherwise. -/
def pyContains (needle : String) : JValue → Except PErr Bool
  | .obj kvs => .ok (kvs.any (fun kv => kv.1 == needle))
  | .arr xs => .ok (xs.any (fun x => match x with | .str s => s == needle | _ => false))
  | .str s => .ok (pyIn needle s)
  | _ => .error .typeErr

/-- Python iteration over a value: list elements, dict keys, string
characters; `TypeError` otherwise. -/
def pyIterate : JValue → Except PErr (List JValue)
  | .arr xs => .ok xs
  | .obj kvs => .ok (kvs.map (fun kv => .str kv.1))
  | .str s => .ok (s.data.map (fun c => .str (String.mk [c])))
  | _ => .error .typeErr

/-- The list comprehension `[item for item in data if k1 in item and k2 in
item]` (with Python's short-circuit `and`). -/
def filterContains (k1 k2 : String) : List JValue → Except PErr (List JValue)
  | [] => .ok []
  | v :: vs =>
    match pyContains k1 v with
    | .error e => .error e
    | .ok b1 =>
      match (if b1 then pyContains k2 v else .ok false) with
      | .error e => .error e
      | .ok keep =>
        match filterContains k1 k2 vs with
        | .error e => .error e
        | .ok rest => .ok (if keep then v :: rest else rest)

/-- Dict membership test on a parsed JSON object. -/
def hasKey (kvs : JObj) (k : String) : Bool := kvs.any (fun kv => kv.1 == k)

/-- `vision_parser_node`'s node mapping (line 211):
`{"id": str(n["id"]), "label": str(n["label"]), "type": str(n.get("type",
"Process")), "bbox": n.get("bbox", [])}`. -/
def mkVisNode (kvs : JObj) : Node :=
  { id := pyStr ((objGet kvs "id").getD .null)
    label := pyStr ((objGet kvs "label").getD .null)
    type := match objGet kvs "type" with | some v => pyStr v | none => "Process"
    bbox := (objGet kvs "bbox").getD (.arr []) }

/-- The entities comprehension (lines 210-213): keep dicts holding both `id`
and `label`. -/
def build_entities (rawNodes : List JValue) : List Node :=
  rawNodes.filterMap (fun v => match v with
    | .obj kvs => if hasKey kvs "id" && hasKey kvs "label" then some (mkVisNode kvs) else none
    | _ => none)

/-- `vision_parser_node`'s edge mapping (line 215). -/
def mkVisEdge (kvs : JObj) : Edge :=
  { from_ := pyStr ((objGet kvs "from").getD .null)
    to_ := pyStr ((objGet kvs "to").getD .null)
    label := match objGet kvs "label" with | some v => pyStr v | none => "connects" }

/-- The edges comprehension (lines 214-217): keep dicts holding both `from`
and `to`. -/
def build_edges (rawEdges : List JValue) : List Edge :=
  rawEdges.filterMap (fun v => match v with
    | .obj kvs => if hasKey kvs "from" && hasKey kvs "to" then some (mkVisEdge kvs) else none
    | _ => none)

/-- `re.search(r"\{.*\}", cleaned, re.DOTALL)`: greedy, so the match runs
from the first `\x7b` to the last `\x7d` (when one follows it). -/
def firstBraceSlice (cs : List Char) : Option (List Char) :=
  match cs.findIdx? (fun c => c = '{') with
  | none => none
  | some i =>
    match cs.reverse.findIdx? (fun c => c = '}') with
    | none => none
    | some rj =>
      let j := cs.length - 1 - rj
      if i < j then some ((cs.drop i).take (j - i + 1)) else none

/-- Lines 195-200 of `vision_parser_node`: parse the cleaned payload; on a
`JSONDecodeError` retry on the outermost `\x7b...\x7d` match, whose own
exceptions (including another `JSONDecodeError`) escape to the node's generic
handler; with no match, `data = \x7b\x7d`. -/
def salvage_data (cleaned : String) : Except PErr JValue :=
  match json_loads cleaned with
  | .ok d => .ok d
  | .error .decode =>
    match firstBraceSlice cleaned.data with
    | some sub => json_loads (String.mk sub)
    | none => .ok (.obj [])
  | .error e => .error e

/-- `data.get(k, [])` when `data` is a dict, else `[]` (the shape used at
lines 202 and 208). -/
def pyGetDefault (data : JValue) (k : String) : JValue :=
  match data with
  | .obj kvs => (objGet kvs k).getD (.arr [])
  | _ => .arr []

/-- Is the value a parsed JSON array (Python list). -/
def isArr : JValue → Bool
  | .arr _ => true
  | _ => false

/-- The elements of a parsed JSON array. -/
def arrItems : JValue → List JValue
  | .arr xs => xs
  | _ => []

/-- Lines 202-217 of `vision_parser_node`: pick `nodes` / `edges` out of the
salvaged payload — the list-of-records shape when the dict shape found no
truthy `nodes` — and map them to typed entities and edges. -/
def unified_nodes_edges (data : JValue) : Except PErr (List Node × List Edge) :=
  let rawNodesPre := pyGetDefault data "nodes"
  if pyFalsy rawNodesPre && isArr data then
    match filterContains "label" "id" (arrItems data) with
    | .error e => .error e
    | .ok rawNodes =>
      match filterContains "from" "to" (arrItems data) with
      | .error e => .error e
      | .ok rawEdges => .ok (build_entities rawNodes, build_edges rawEdges)
  else
    let rawEdgesPre := pyGetDefault data "edges"
    match pyIterate rawNodesPre with
    | .error e => .error e
    | .ok rawNodes =>
      match pyIterate rawEdgesPre with
      | .error e => .error e
      | .ok rawEdges => .ok (build_entities rawNodes, build_edges rawEdges)

/-- The placeholder node substituted when extraction fully fails
(`fallback_node`, line 179). -/
def fallback_node : Node :=
  { id := "n1", label := "Unknown Component", type := "Process", bbox := .arr [] }

/-- The body of `vision_parser_node`'s `try` block after the inference call
returned `raw_text` (lines 194-227): unified parse, robust-scanner fallback
when it found no node (resp. no edge), placeholder when still empty.  An
`.error` is an exception escaping to the node's `except` handler. -/
def vision_body (raw_text : String) : Except PErr (List Node × List Edge) :=
  match salvage_data (strip_json_markdown raw_text) with
  | .error e => .error e
  | .ok data =>
    match unified_nodes_edges data with
    | .error e => .error e
    | .ok (entities0, edges0) =>
      match (if entities0.isEmpty then parse_entities_from_json raw_text else .ok entities0) with
      | .error e => .error e
      | .ok entities1 =>
        match (if edges0.isEmpty then parse_edges_from_json raw_text else .ok edges0) with
        | .error e => .error e
        | .ok edges1 => .ok ((if entities1.isEmpty then [fallback_node] else entities1), edges1)

/-- The substrings whose presence in `str(e)` makes `vision_parser_node`
re-raise (line 240). -/
def quota_tokens : List String := ["RESOURCE_EXHAUSTED", "429", "404", "NOT_FOUND"]

/-- `any(x in err_str for x in [...])` at line 240. -/
def should_reraise (err : String) : Bool := quota_tokens.any (fun t => pyIn t err)

/-- Schematic message text of each modelled exception, as fed to `str(e)`.
Only the absence of the four quota tokens matters to the handler, and every
message CPython produces for these exception classes lacks them. -/
def errMsg : PErr → String
  | .decode => "Expecting value: line 1 column 1 (char 0)"
  | .recursion => "maximum recursion depth exceeded"
  | .typeErr => "argument of type 'int' is not iterable"

/-- Python string slicing `s[:n]` (by code point, as `List.take` on the
character data). -/
def pyTake (s : String) (n : Nat) : String := String.mk (s.data.take n)

/-- The graceful-degradation return value of the `except` handler (lines
242-246): the placeholder graph and the truncated error text
(`err_str[:200]`). -/
def placeholder_result (err : String) : List Node × List Edge × String :=
  ([fallback_node], [], "[API unavailable: " ++ pyTake err 200 ++ "]")

/-- `vision_parser_node` around the external call: `infer` is the outcome of
`client.models.generate_content` (plus everything else inside the `try`, cf.
`vision_body`); `.error` on the outside is a re-raised exception, `.ok` the
state update `(rectangles, edges, gemini_raw)`. -/
def vision_parser_node (infer : Except String String) : Except String (List Node × List Edge × String) :=
  match infer with
  | .error e => if should_reraise e then .error e else .ok (placeholder_result e)
  | .ok raw_text =>
    match vision_body raw_text with
    | .ok (entities, edges) => .ok (entities, edges, raw_text)
    | .error pe =>
      if should_reraise (errMsg pe) then .error (errMsg pe)
      else .ok (placeholder_result (errMsg pe))

/-- `rag_node`'s `id_to_label` dict lookup: `{e["id"]: e["label"] for e in
entities}` built in order, so a repeated id keeps the LAST entity. -/
def dict_get_label (entities : List Node) (k : String) : Option String :=
  (entities.reverse.find? (fun n => n.id == k)).map (fun n => n.label)

/-- One line of `rag_node`'s `edges_text` (line 265): endpoints resolved by
id only, with the constant `Unknown` as the fallback. -/
def edge_line (entities : List Node) (e : Edge) : String :=
  "- " ++ (dict_get_label entities e.from_).getD "Unknown" ++ " --[" ++ e.label ++ "]--> " ++
    (dict_get_label entities e.to_).getD "Unknown"

/-- `rag_node`'s `edges_text`. -/
def edges_text (entities : List Node) (edges : List Edge) : String :=
  String.intercalate "\n" (edges.map (edge_line entities))

/-- One line of `rag_node`'s local fallback `edge_summary` (line 286): here
the raw reference string is the lookup default. -/
def edge_summary_line (entities : List Node) (e : Edge) : String :=
  "  " ++ (dict_get_label entities e.from_).getD e.from_ ++ " --[" ++ e.label ++ "]--> " ++
    (dict_get_label entities e.to_).getD e.to_

/-- `code_gen_node.safe_id`: `re.sub(r"[^A-Za-z0-9_]", "_", name)`. -/
def isWordChar (c : Char) : Bool :=
  ('A' ≤ c && c ≤ 'Z') || ('a' ≤ c && c ≤ 'z') || ('0' ≤ c && c ≤ '9') || c = '_'

/-- `safe_id(name)`. -/
def safe_id (name : String) : String :=
  String.mk (name.data.map (fun c => if isWordChar c then c else '_'))

/-- `safe_class(name)`: `re.sub(r"[^A-Za-z0-9]", "", name)`. -/
def safe_class (name : String) : String :=
  String.mk (name.data.filter (fun c => isWordChar c && c ≠ '_'))

/-- `code_gen_node`'s `id_to_node` dict lookup (`{e["id"]: e for e in
entities}`, last occurrence wins). -/
def dict_get_node (entities : List Node) (k : String) : Option Node :=
  entities.reverse.find? (fun n => n.id == k)

/-- `t in types` for the node-type set. -/
def has_type (entities : List Node) (t : String) : Bool :=
  entities.any (fun n => n.type == t)

/-- The 60-character separator row used by both generated-code headers. -/
def eqRow : String := String.mk (List.replicate 60 '=')

/-- One `CREATE TABLE` block (lines 328-334). -/
def sql_table (n : Node) : String :=
  "CREATE TABLE IF NOT EXISTS " ++ safe_id n.label ++ " (\n" ++
  "    id          SERIAL PRIMARY KEY,\n" ++
  "    created_at  TIMESTAMP DEFAULT NOW()\n" ++
  "    -- TODO: add columns for '" ++ n.label ++ "'\n" ++
  ");\n\n"

/-- One foreign-key block for a Database-to-Database edge (lines 337-347). -/
def sql_fk (entities : List Node) (ed : Edge) : Option String :=
  match dict_get_node entities ed.from_, dict_get_node entities ed.to_ with
  | some src, some tgt =>
    if src.type == "Database" && tgt.type == "Database" then
      some ("ALTER TABLE " ++ safe_id src.label ++ "\n    ADD COLUMN  " ++ safe_id tgt.label ++
            "_id INT REFERENCES " ++ safe_id tgt.label ++ "(id)  -- Link: " ++ ed.label ++
            "\n    ON DELETE SET NULL;\n\n")
    else none
  | _, _ => none

/-- The SQL DDL section (built when a Database node exists). -/
def sql_section (entities : List Node) (edges : List Edge) : String :=
  "-- " ++ eqRow ++ "\n" ++
  "-- SQL DDL  (auto-generated by Trace)\n" ++
  "-- " ++ eqRow ++ "\n\n" ++
  String.join ((entities.filter (fun n => n.type == "Database")).map sql_table) ++
  String.join (edges.filterMap (sql_fk entities))

/-- The incoming-actor loop of `code_gen_node` (lines 371-377): scan the
edges in insertion order for the first incoming edge of `procId` whose
source node has type Actor; non-Actor incoming edges are passed over. -/
def actor_scan (entities : List Node) (procId : String) : List Edge → Option (String × String)
  | [] => none
  | ed :: rest =>
    if ed.to_ == procId then
      match dict_get_node entities ed.from_ with
      | some src =>
        if src.type == "Actor" then some (src.label, ed.label)
        else actor_scan entities procId rest
      | none => actor_scan entities procId rest
    else actor_scan entities procId rest

/-- `actor_id_param` (line 381): empty when no actor edge was found. -/
def actor_param (info : Option (String × String)) : String :=
  match info with
  | some (actorLabel, actionLabel) =>
    "\n    " ++ lowerStr (safe_id actorLabel) ++ "_id: int,  # from edge: " ++ actionLabel
  | none => ""

/-- `actor_comment` (lines 382, 385). -/
def actor_comment (info : Option (String × String)) : String :=
  match info with
  | some (actorLabel, actionLabel) =>
    "Triggered by '" ++ actorLabel ++ "' via '" ++ actionLabel ++ "'"
  | none => "No direct actor edge detected"

/-- The `logic_body` list built for one Process node (lines 387-426),
including Python truthiness on the ids (`if next_id:`, `if yes_id`). -/
def logic_body_for (entities : List Node) (edges : List Edge) (proc : Node) : List String :=
  let lb : List String :=
    match get_next_step edges proc.id with
    | none => []
    | some (nextId, _) =>
      if nextId == "" then []
      else
        match dict_get_node entities nextId with
        | none => []
        | some nextNode =>
          if nextNode.type == "Decision" then
            let yesId := (edges.find? (fun ed => ed.from_ == nextId && lowerStr ed.label == "yes")).map (fun ed => ed.to_)
            let noId := (edges.find? (fun ed => ed.from_ == nextId && lowerStr ed.label == "no")).map (fun ed => ed.to_)
            let yesNode := match yesId with
              | some s => if s == "" then none else dict_get_node entities s
              | none => none
            let noNode := match noId with
              | some s => if s == "" then none else dict_get_node entities s
              | none => none
            ["    if True: # Logic for: " ++ nextNode.label] ++
            (match yesNode with
             | some yn =>
               if yn.type == "Database" then
                 ["        # Yes: Save to " ++ yn.label ++ "\n        db.save(" ++ safe_id yn.label ++ ")"]
               else ["        # Yes: Proceed to " ++ yn.label]
             | none => ["        pass"]) ++
            ["    else:"] ++
            (match noNode with
             | some nn =>
               if nn.type == "Database" then
                 ["        # No: Save to " ++ nn.label ++ "\n        db.save(" ++ safe_id nn.label ++ ")"]
               else ["        # No: Proceed to " ++ nn.label]
             | none => ["        pass"])
          else if nextNode.type == "Database" then
            ["    # Save to " ++ nextNode.label ++ "\n    db.save(" ++ safe_id nextNode.label ++ ")"]
          else []
  if lb.isEmpty then ["    # TODO: implement logic"] else lb

/-- The endpoint block for one Process node (lines 428-442).  The string
equals the source f-string; it is grouped right-associatively around the
actor parameter and the two comment occurrences so the containment theorems
can address them. -/
def endpoint_for (entities : List Node) (edges : List Edge) (proc : Node) : String :=
  let info := actor_scan entities proc.id edges
  let cls := safe_class proc.label
  ("class " ++ cls ++ "Request(BaseModel):\n    # TODO: define fields  (") ++
  (actor_comment info ++
   ((")\n    pass\n\n@app.post(\"" ++ ("/" ++ lowerStr (safe_id proc.label)) ++
       "\")\nasync def " ++ lowerStr (safe_id proc.label)) ++
    (("(" ++ (actor_param info ++ "\n    request: ")) ++
     ((cls ++ "Request,\n):\n    \"\"\"\n    ") ++
      (actor_comment info ++
       ("\n    Process: " ++ proc.label ++ "\n    \"\"\"\n" ++
        String.intercalate "\n" (logic_body_for entities edges proc) ++
        "\n    return \x7b\"status\": \"ok\"\x7d\n\n\n"))))))

/-- The fixed FastAPI section header (lines 353-361). -/
def py_header : String :=
  "# " ++ eqRow ++ "\n" ++
  "# FastAPI Project Skeleton  (auto-generated by Trace)\n" ++
  "# " ++ eqRow ++ "\n\n" ++
  "from fastapi import FastAPI, HTTPException\n" ++
  "from pydantic import BaseModel\n" ++
  "from typing import Optional\n\n" ++
  "app = FastAPI(title=\"Trace Generated API\")\n\n"

/-- The FastAPI skeleton section. -/
def py_section (entities : List Node) (edges : List Edge) : String :=
  py_header ++
    String.join ((entities.filter (fun n => n.type == "Process")).map (endpoint_for entities edges))

/-- One `(from_label, edge_label, to_label)` triple of the fallback section
(line 450): the raw reference string stands in for an unresolved endpoint
(`id_to_node.get(ed["from"], {"label": ed["from"]})["label"]`). -/
def fallback_triple (entities : List Node) (ed : Edge) : String × String × String :=
  (((dict_get_node entities ed.from_).map (fun n => n.label)).getD ed.from_,
   ed.label,
   ((dict_get_node entities ed.to_).map (fun n => n.label)).getD ed.to_)

/-- Python repr of one triple of strings. -/
def triple_repr (t : String × String × String) : String :=
  "(" ++ pyReprStr t.1 ++ ", " ++ pyReprStr t.2.1 ++ ", " ++ pyReprStr t.2.2 ++ ")"

/-- The fallback code section (lines 447-452), emitted only when no other
section was produced. -/
def fallback_section (entities : List Node) (edges : List Edge) : String :=
  "# Trace detected: " ++ String.intercalate ", " (entities.map (fun n => n.label)) ++ "\n" ++
  "# Edges: [" ++
    String.intercalate ", " (edges.map (fun ed => triple_repr (fallback_triple entities ed))) ++
  "]\n" ++
  "# No code template matched — add Database, Actor, or Process nodes.\n"

/-- `code_gen_node`: the generated code, `"\n".join(code_sections)`. -/
def code_gen (entities : List Node) (edges : List Edge) : String :=
  let sections :=
    (if (entities.filter (fun n => n.type == "Database")).isEmpty then []
     else [sql_section entities edges]) ++
    (if has_type entities "Actor" || has_type entities "Process" || has_type entities "Decision"
     then [py_section entities edges] else [])
  let sections := if sections.isEmpty then [fallback_section entities edges] else sections
  String.intercalate "\n" sections

/-- "yes"/"no" branch target of a Decision node, stated from the spec: the
first outgoing edge of the decision labeled case-insensitively `word`,
resolved (truthily) through the id index. -/
def decision_target (entities : List Node) (edges : List Edge) (decisionId word : String) : Option Node :=
  match (edges.find? (fun ed => ed.from_ == decisionId && lowerStr ed.label == word)).map (fun ed => ed.to_) with
  | some s => if s == "" then none else dict_get_node entities s
  | none => none

/-- Yes-branch rendering, stated from the spec: a Database target yields the
persist-call placeholder, any other target a continue-to-label comment, a
missing target the no-op placeholder. -/
def yes_branch_line (target : Option Node) : String :=
  match target with
  | some n =>
    if n.type == "Database" then
      "        # Yes: Save to " ++ n.label ++ "\n        db.save(" ++ safe_id n.label ++ ")"
    else "        # Yes: Proceed to " ++ n.label
  | none => "        pass"

/-- No-branch rendering, stated from the spec (same rule as the Yes branch). -/
def no_branch_line (target : Option Node) : String :=
  match target with
  | some n =>
    if n.type == "Database" then
      "        # No: Save to " ++ n.label ++ "\n        db.save(" ++ safe_id n.label ++ ")"
    else "        # No: Proceed to " ++ n.label
  | none => "        pass"

/-- The if/else skeleton the spec describes for a Decision successor. -/
def decision_skeleton (entities : List Node) (edges : List Edge) (d : Node) : List String :=
  ["    if True: # Logic for: " ++ d.label,
   yes_branch_line (decision_target entities edges d.id "yes"),
   "    else:",
   no_branch_line (decision_target entities edges d.id "no")]

/-- The persist-call placeholder the spec describes for a direct Database
successor. -/
def persist_body (d : Node) : List String :=
  ["    # Save to " ++ d.label ++ "\n    db.save(" ++ safe_id d.label ++ ")"]

/-- 2000 nested JSON arrays: well under any plausible input size, far over
the interpreter recursion limit. -/
def deep_input : String := String.mk (List.replicate 2000 '[')

/-- A JSON array of 11 pairwise-distinct node records. -/
def raw11 : String := "[\x7b\"id\": \"n1\", \"label\": \"L1\", \"type\": \"Process\"\x7d, \x7b\"id\": \"n2\", \"label\": \"L2\", \"type\": \"Process\"\x7d, \x7b\"id\": \"n3\", \"label\": \"L3\", \"type\": \"Process\"\x7d, \x7b\"id\": \"n4\", \"label\": \"L4\", \"type\": \"Process\"\x7d, \x7b\"id\": \"n5\", \"label\": \"L5\", \"type\": \"Process\"\x7d, \x7b\"id\": \"n6\", \"label\": \"L6\", \"type\": \"Process\"\x7d, \x7b\"id\": \"n7\", \"label\": \"L7\", \"type\": \"Process\"\x7d, \x7b\"id\": \"n8\", \"label\": \"L8\", \"type\": \"Process\"\x7d, \x7b\"id\": \"n9\", \"label\": \"L9\", \"type\": \"Process\"\x7d, \x7b\"id\": \"n10\", \"label\": \"L10\", \"type\": \"Process\"\x7d, \x7b\"id\": \"n11\", \"label\": \"L11\", \"type\": \"Process\"\x7d]"

/-- A JSON array of 15 node records that differ only in key order. -/
def raw15 : String := "[\x7b\"id\": \"n1\", \"label\": \"A\", \"type\": \"Process\"\x7d, \x7b\"id\": \"n1\", \"type\": \"Process\", \"label\": \"A\"\x7d, \x7b\"label\": \"A\", \"id\": \"n1\", \"type\": \"Process\"\x7d, \x7b\"label\": \"A\", \"type\": \"Process\", \"id\": \"n1\"\x7d, \x7b\"type\": \"Process\", \"id\": \"n1\", \"label\": \"A\"\x7d, \x7b\"type\": \"Process\", \"label\": \"A\", \"id\": \"n1\"\x7d, \x7b\"id\": \"n1\", \"label\": \"A\", \"type\": \"Process\"\x7d, \x7b\"id\": \"n1\", \"type\": \"Process\", \"label\": \"A\"\x7d, \x7b\"label\": \"A\", \"id\": \"n1\", \"type\": \"Process\"\x7d, \x7b\"label\": \"A\", \"type\": \"Process\", \"id\": \"n1\"\x7d, \x7b\"type\": \"Process\", \"id\": \"n1\", \"label\": \"A\"\x7d, \x7b\"type\": \"Process\", \"label\": \"A\", \"id\": \"n1\"\x7d, \x7b\"id\": \"n1\", \"label\": \"A\", \"type\": \"Process\"\x7d, \x7b\"id\": \"n1\", \"type\": \"Process\", \"label\": \"A\"\x7d, \x7b\"label\": \"A\", \"id\": \"n1\", \"type\": \"Process\"\x7d]"

/-- A node record embedded in prose, no braces inside string values. -/
def prose_ok : String := "Here is the node: \x7b\"id\": \"n1\", \"label\": \"Login\", \"type\": \"Process\"\x7d thanks."

/-- A node record embedded in prose whose label string contains a closing
brace. -/
def prose_brace : String := "Result: \x7b\"id\": \"n1\", \"label\": \"a\x7db\", \"type\": \"Process\"\x7d end"

/-- A unified payload whose two node records share the id `n1`. -/
def dup_raw : String := "\x7b\"nodes\": [\x7b\"id\": \"n1\", \"label\": \"A\", \"type\": \"Process\"\x7d, \x7b\"id\": \"n1\", \"label\": \"B\", \"type\": \"Process\"\x7d], \"edges\": []\x7d"

/-- Unparsable upstream text (an inference call that succeeded but returned
garbage). -/
def garbage_raw : String := "The model returned nothing usable this time."

/-- A bulleted plain-text list, the shape the spec says a legacy heuristic
would turn into keyword-typed nodes. -/
def bullets_raw : String := "1. user database\n2. api interface"

/-- Counterexample graph for the decision-branching claim: Process `p` has an
outgoing edge to Decision `d`, but its FIRST outgoing edge goes to the
Interface node `x`. -/
def c3_nodes : List Node :=
  [⟨"p", "P1", "Process", .arr []⟩, ⟨"x", "X1", "Interface", .arr []⟩,
   ⟨"d", "D1", "Decision", .arr []⟩, ⟨"b", "DB1", "Database", .arr []⟩]

/-- Edges of the counterexample graph: the edge to the Decision node is the
second outgoing edge of `p`. -/
def c3_edges : List Edge :=
  [⟨"p", "x", "go"⟩, ⟨"p", "d", "check"⟩, ⟨"d", "b", "yes"⟩, ⟨"d", "x", "no"⟩]

/-- Edges whose first outgoing edge of `p` does reach the Decision node. -/
def c3w_edges : List Edge :=
  [⟨"p", "d", "check"⟩, ⟨"d", "b", "Yes"⟩, ⟨"d", "x", "No"⟩]

/-- Witness graph for the actor-parameter claim: `p1` has a non-Actor
incoming edge before the Actor edge. -/
def c4_nodes : List Node :=
  [⟨"a1", "User", "Actor", .arr []⟩, ⟨"p1", "CreateOrder", "Process", .arr []⟩,
   ⟨"p2", "Cleanup", "Process", .arr []⟩]

/-- Edges of the actor witness graph. -/
def c4_edges : List Edge :=
  [⟨"p2", "p1", "retry"⟩, ⟨"a1", "p1", "submits"⟩]

/-- Counterexample graph for edge resolution: the edge references the node by
its LABEL (`UserDB`), which matches no node id. -/
def c5_nodes : List Node := [⟨"n1", "UserDB", "Database", .arr []⟩]

/-- The label-referencing edge. -/
def c5_edges : List Edge := [⟨"UserDB", "n1", "stores"⟩]

/-- `String.append` acts as list append on the character data. -/
theorem str_data_append (a b : String) : (a ++ b).data = a.data ++ b.data := rfl

/-- `strStartsWith` decides the prefix relation. -/
theorem strStartsWith_iff (a : List Char) : ∀ l : List Char,
    strStartsWith a l = true ↔ ∃ r, l = a ++ r := by
  induction a with
  | nil => intro l; simp [strStartsWith]
  | cons x xs ih =>
    intro l
    cases l with
    | nil => simp [strStartsWith]
    | cons y ys =>
      simp only [strStartsWith, Bool.and_eq_true, decide_eq_true_eq, ih]
      constructor
      · rintro ⟨rfl, r, rfl⟩
        exact ⟨r, rfl⟩
      · rintro ⟨r, h⟩
        cases h
        exact ⟨rfl, r, rfl⟩

/-- `pyInAux` decides the substring relation. -/
theorem pyInAux_iff (sub : List Char) : ∀ l : List Char,
    pyInAux sub l = true ↔ ∃ p q, l = p ++ sub ++ q := by
  intro l
  induction l with
  | nil =>
    simp only [pyInAux, strStartsWith_iff]
    constructor
    · rintro ⟨r, h⟩
      exact ⟨[], r, h⟩
    · rintro ⟨p, q, h⟩
      rcases List.append_eq_nil.mp (List.append_eq_nil.mp h.symm).1 with ⟨h1, h2⟩
      exact ⟨q, by simp [h2, (List.append_eq_nil.mp h.symm).2, h1]⟩
  | cons c cs ih =>
    simp only [pyInAux, Bool.or_eq_true, strStartsWith_iff, ih]
    constructor
    · rintro (⟨r, h⟩ | ⟨p, q, h⟩)
      · exact ⟨[], r, by simpa using h⟩
      · exact ⟨c :: p, q, by simp [h]⟩
    · rintro ⟨p, q, h⟩
      cases p with
      | nil => exact Or.inl ⟨q, by simpa using h⟩
      | cons p0 ps =>
        right
        refine ⟨ps, q, ?_⟩
        simpa using congrArg List.tail h

/-- `pyIn` decides `strContains`. -/
theorem pyIn_iff (sub s : String) : pyIn sub s = true ↔ strContains s sub := by
  unfold pyIn strContains
  exact pyInAux_iff sub.data s.data

/-- Every string contains itself. -/
theorem strContains_self (s : String) : strContains s s := ⟨[], [], by simp⟩

/-- Containment is preserved by appending on the right. -/
theorem strContains_append_left {a sub : String} (b : String) (h : strContains a sub) :
    strContains (a ++ b) sub := by
  obtain ⟨p, q, hp⟩ := h
  exact ⟨p, q ++ b.data, by simp [str_data_append, hp]⟩

/-- Containment is preserved by appending on the left. -/
theorem strContains_append_right {b sub : String} (a : String) (h : strContains b sub) :
    strContains (a ++ b) sub := by
  obtain ⟨p, q, hp⟩ := h
  exact ⟨a.data ++ p, q, by simp [str_data_append, hp]⟩

/-- The re-raise test holds exactly when one of the four quota tokens occurs
in the error text. -/
theorem should_reraise_iff (e : String) :
    should_reraise e = true ↔ ∃ t ∈ quota_tokens, strContains e t := by
  simp [should_reraise, List.any_eq_true, pyIn_iff]

/-- Claim C1 (amended): `vision_parser_node` propagates an inference failure
exactly when the error text contains one of the substrings
`RESOURCE_EXHAUSTED`, `429`, `404`, `NOT_FOUND`; every other failure — a
service-unavailable error without those markers included — is replaced by the
single placeholder node (label `Unknown Component`, type `Process`), an empty
edge list and the truncated `[API unavailable: ...]` raw text, and the
pipeline continues without raising. -/
theorem vision_error_classification (e : String) :
    (vision_parser_node (.error e) = .error e ↔ ∃ t ∈ quota_tokens, strContains e t)
    ∧ (vision_parser_node (.error e) = .error e ∨
       vision_parser_node (.error e) = .ok (placeholder_result e)) := by
  have hiff := should_reraise_iff e
  by_cases h : should_reraise e = true
  · exact ⟨by simp [vision_parser_node, h, hiff.mp h], Or.inl (by simp [vision_parser_node, h])⟩
  · have hno : ¬ ∃ t ∈ quota_tokens, strContains e t := fun hc => h (hiff.mpr hc)
    exact ⟨by simp [vision_parser_node, h, hno], Or.inr (by simp [vision_parser_node, h])⟩

/-- Claim C1 counterexample: an inference failure reading `503 UNAVAILABLE` —
a service-unavailable condition, transient by the claim's classification — is
NOT propagated: the stage masks it with the placeholder graph, because the
handler re-raises only on the four quota substrings. -/
theorem vision_unavailable_masked :
    vision_parser_node (.error "503 UNAVAILABLE") =
      .ok ([fallback_node], [], "[API unavailable: 503 UNAVAILABLE]") := rfl

/-- `skipWs` passes a leading open bracket through. -/
theorem skipWs_bracket (l : List Char) : skipWs ('[' :: l) = '[' :: l := rfl

/-- `dropLeadSpace` passes a run of open brackets through. -/
theorem dropLeadSpace_replicate (n : Nat) :
    dropLeadSpace (List.replicate n '[') = List.replicate n '[' := by
  cases n with
  | zero => rfl
  | succ m => rw [List.replicate_succ]; rfl

/-- `str.strip()` passes a run of open brackets through. -/
theorem pyStripChars_replicate (n : Nat) :
    pyStripChars (List.replicate n '[') = List.replicate n '[' := by
  unfold pyStripChars
  rw [dropLeadSpace_replicate, List.reverse_replicate, dropLeadSpace_replicate,
    List.reverse_replicate, dropLeadSpace_replicate]

/-- The leading-fence substitution passes a run of open brackets through. -/
theorem stripLeadFence_replicate (n : Nat) :
    stripLeadFence (List.replicate n '[') = List.replicate n '[' := by
  cases n with
  | zero => rfl
  | succ m => rw [List.replicate_succ]; rfl

/-- The trailing-fence substitution passes a run of open brackets through. -/
theorem stripTrailFence_replicate (n : Nat) :
    stripTrailFence (List.replicate n '[') = List.replicate n '[' := by
  unfold stripTrailFence
  rw [List.reverse_replicate, dropLeadSpace_replicate]
  cases n with
  | zero => rfl
  | succ m => rw [List.replicate_succ]; rfl

/-- Parsing a run of open brackets blows the recursion limit: once the
nesting reaches the limit before the input (or the fuel) runs out, the
scanner raises `RecursionError`. -/
theorem parseValue_replicate (n : Nat) : ∀ f d : Nat, reclimit < d + n → d ≤ reclimit → n ≤ f →
    parseValue f d (List.replicate n '[') = .error .recursion := by
  induction n with
  | zero =>
    intro f d h1 h2 _
    exact absurd h1 (by omega)
  | succ m ih =>
    intro f d h1 h2 h3
    obtain ⟨g, rfl⟩ : ∃ g, f = g + 1 := ⟨f - 1, by omega⟩
    rw [List.replicate_succ]
    by_cases hd : reclimit ≤ d
    · rw [parseValue, skipWs_bracket]
      simp [hd]
    · have hm : 1 ≤ m := by unfold reclimit at *; omega
      obtain ⟨k, rfl⟩ : ∃ k, m = k + 1 := ⟨m - 1, by omega⟩
      have hrec : parseValue g (d + 1) ('[' :: List.replicate k '[') = .error .recursion := by
        rw [← List.replicate_succ]
        apply ih <;> omega
      rw [parseValue, skipWs_bracket]
      simp only [List.replicate_succ, skipWs_bracket]
      simp [hd, hrec, parseArrayAux]

/-- `json.loads` on 2000 nested arrays raises `RecursionError`. -/
theorem json_loads_deep : json_loads deep_input = .error .recursion := by
  have h : parseValue ((List.replicate 2000 '[').length + 2) 0 (List.replicate 2000 '[') =
      .error .recursion := by
    apply parseValue_replicate
    · show reclimit < 0 + 2000
      decide
    · exact Nat.zero_le _
    · rw [List.length_replicate]
      omega
  rw [json_loads, show deep_input.data = List.replicate 2000 '[' from rfl, h]

/-- `strip_json_markdown` leaves the deeply nested input unchanged. -/
theorem strip_deep : strip_json_markdown deep_input = deep_input := by
  unfold strip_json_markdown deep_input
  rw [show (String.mk (List.replicate 2000 '[')).data = List.replicate 2000 '[' from rfl,
    pyStripChars_replicate, stripLeadFence_replicate, stripTrailFence_replicate,
    pyStripChars_replicate]

/-- Claim C2 (code bug): `_parse_json_objects` does NOT terminate normally on
every input — on 2000 nested JSON arrays (`"[" * 2000`) the whole-payload
`json.loads` raises `RecursionError`, which the function's
`except json.JSONDecodeError` does not catch, so the exception escapes for
every required-key set. -/
theorem parse_json_objects_recursion_blowup (required : List String) :
    parse_json_objects deep_input required = .error .recursion := by
  unfold parse_json_objects
  simp only [strip_deep, json_loads_deep]

/-- Reducing the Yes-branch match of `logic_body_for` to its spec rendering. -/
theorem yes_branch_reduce (o : Option Node) :
    (match o with
     | some yn =>
       if yn.type == "Database" then
         ["        # Yes: Save to " ++ yn.label ++ "\n        db.save(" ++ safe_id yn.label ++ ")"]
       else ["        # Yes: Proceed to " ++ yn.label]
     | none => ["        pass"]) = [yes_branch_line o] := by
  cases o with
  | none => simp [yes_branch_line]
  | some n => by_cases h : (n.type == "Database") <;> simp [yes_branch_line, h]

/-- Reducing the No-branch match of `logic_body_for` to its spec rendering. -/
theorem no_branch_reduce (o : Option Node) :
    (match o with
     | some nn =>
       if nn.type == "Database" then
         ["        # No: Save to " ++ nn.label ++ "\n        db.save(" ++ safe_id nn.label ++ ")"]
       else ["        # No: Proceed to " ++ nn.label]
     | none => ["        pass"]) = [no_branch_line o] := by
  cases o with
  | none => simp [no_branch_line]
  | some n => by_cases h : (n.type == "Database") <;> simp [no_branch_line, h]

/-- Claim C3 (amended): the generator branches on a Process node's FIRST
outgoing edge (`get_next_step` returns the first match in edge order), not on
an arbitrary outgoing edge.  When that first edge's (truthy) target resolves
to a Decision node, the emitted body is exactly the if/else skeleton — the
Decision's first case-insensitive "yes"/"no" outgoing edges resolved, a
Database branch target rendered as a persist call, any other target as a
continue-to-label comment, a missing branch as a no-op `pass`; when it
resolves to a Database node, the body is the single persist-call placeholder
instead of a branch. -/
theorem logic_body_decision (entities : List Node) (edges : List Edge) (proc : Node)
    (nextId nextLabel : String) (d : Node)
    (hstep : get_next_step edges proc.id = some (nextId, nextLabel))
    (hne : nextId ≠ "")
    (hd : dict_get_node entities nextId = some d) :
    (d.type = "Decision" → logic_body_for entities edges proc = decision_skeleton entities edges d)
    ∧ (d.type = "Database" → logic_body_for entities edges proc = persist_body d) := by
  have hid : d.id = nextId := by
    have := List.find?_some hd
    simpa using this
  have hne2 : (nextId == "") = false := by simpa using hne
  constructor
  · intro htype
    have htb : (d.type == "Decision") = true := by simp [htype]
    unfold logic_body_for decision_skeleton decision_target
    simp only [hstep, hne2, hd, hid, htb, Bool.false_eq_true, if_false]
    rw [yes_branch_reduce, no_branch_reduce]
    simp
  · intro htype
    have htb : (d.type == "Decision") = false := by simp [htype]
    have htb2 : (d.type == "Database") = true := by simp [htype]
    unfold logic_body_for persist_body
    simp only [hstep, hne2, hd, htb, htb2, Bool.false_eq_true, if_false]
    simp

/-- Claim C3 witness: in the `c3w` graph the first outgoing edge of `p` does
reach the Decision node, and the emitted body is the if/else skeleton. -/
theorem logic_body_decision_witness :
    logic_body_for c3_nodes c3w_edges ⟨"p", "P1", "Process", .arr []⟩ =
      decision_skeleton c3_nodes c3w_edges ⟨"d", "D1", "Decision", .arr []⟩ :=
  (logic_body_decision c3_nodes c3w_edges ⟨"p", "P1", "Process", .arr []⟩ "d" "check"
    ⟨"d", "D1", "Decision", .arr []⟩ rfl (by decide) rfl).1 rfl

set_option maxRecDepth 40000 in
/-- Claim C3 counterexample: in `c3_nodes`/`c3_edges` the Process node `p`
HAS an outgoing edge to a Decision node (with labeled yes/no edges), yet the
generated code contains no if/else skeleton at all, because `p`'s first
outgoing edge targets an Interface node and only the first outgoing edge is
inspected. -/
theorem code_gen_decision_edge_ignored :
    (⟨"p", "d", "check"⟩ : Edge) ∈ c3_edges
    ∧ dict_get_node c3_nodes "d" = some ⟨"d", "D1", "Decision", .arr []⟩
    ∧ (⟨"p", "P1", "Process", .arr []⟩ : Node) ∈ c3_nodes
    ∧ pyIn "if True:" (code_gen c3_nodes c3_edges) = false := by
  refine ⟨?_, rfl, ?_, rfl⟩
  · simp [c3_edges]
  · simp [c3_nodes]

/-- The actor loop is a first-match linear scan: it equals `find?` over the
edges with the predicate "incoming edge whose source resolves to an Actor
node", projected to the actor label and edge label. -/
theorem actor_scan_eq_find (entities : List Node) (procId : String) : ∀ edges : List Edge,
    actor_scan entities procId edges =
      (edges.find? (fun ed => ed.to_ == procId &&
        ((dict_get_node entities ed.from_).map (fun src => src.type == "Actor")).getD false)).bind
        (fun ed => (dict_get_node entities ed.from_).map (fun src => (src.label, ed.label))) := by
  intro edges
  induction edges with
  | nil => rfl
  | cons ed rest ih =>
    by_cases h1 : (ed.to_ == procId) = true
    · rcases hg : dict_get_node entities ed.from_ with _ | src
      · simp [actor_scan, List.find?_cons, h1, hg, ih]
      · by_cases hs : (src.type == "Actor") = true
        · simp [actor_scan, List.find?_cons, h1, hg, hs]
        · simp [actor_scan, List.find?_cons, h1, hg, hs, ih]
    · simp [actor_scan, List.find?_cons, h1, ih]

/-- Claim C4 (confirmed): for every Process node, the triggering actor is the
first incoming edge (in edge insertion order) whose source node has type
Actor; when found, the endpoint contains the actor-identifier parameter and
the comment naming the actor and that edge's label; when not found, the
endpoint contains the no-actor comment and its signature is
`(\n    request: ` — no actor parameter between the parenthesis and the
request argument. -/
theorem actor_first_match_endpoint (entities : List Node) (edges : List Edge) (proc : Node)
    (hmem : proc ∈ entities) (hty : proc.type = "Process") :
    actor_scan entities proc.id edges =
      (edges.find? (fun ed => ed.to_ == proc.id &&
        ((dict_get_node entities ed.from_).map (fun src => src.type == "Actor")).getD false)).bind
        (fun ed => (dict_get_node entities ed.from_).map (fun src => (src.label, ed.label)))
    ∧ (∀ a l, actor_scan entities proc.id edges = some (a, l) →
        strContains (endpoint_for entities edges proc)
          ("\n    " ++ lowerStr (safe_id a) ++ "_id: int,  # from edge: " ++ l)
        ∧ strContains (endpoint_for entities edges proc)
          ("Triggered by '" ++ a ++ "' via '" ++ l ++ "'"))
    ∧ (actor_scan entities proc.id edges = none →
        strContains (endpoint_for entities edges proc) "No direct actor edge detected"
        ∧ strContains (endpoint_for entities edges proc) "(\n    request: ") := by
  refine ⟨actor_scan_eq_find entities proc.id edges, ?_, ?_⟩
  · intro a l hinfo
    constructor
    · simp only [endpoint_for, hinfo]
      apply strContains_append_right
      apply strContains_append_right
      apply strContains_append_right
      apply strContains_append_left
      apply strContains_append_right
      apply strContains_append_left
      exact strContains_self _
    · simp only [endpoint_for, hinfo]
      apply strContains_append_right
      apply strContains_append_left
      exact strContains_self _
  · intro hinfo
    constructor
    · simp only [endpoint_for, hinfo]
      apply strContains_append_right
      apply strContains_append_left
      exact strContains_self _
    · simp only [endpoint_for, hinfo]
      apply strContains_append_right
      apply strContains_append_right
      apply strContains_append_right
      apply strContains_append_left
      exact ⟨[], [], rfl⟩

/-- Claim C4 witness: in the `c4` graph, `CreateOrder`'s first incoming edge
is non-Actor and is passed over; the Actor edge `submits` is found, and the
endpoint carries the `user_id` parameter and the naming comment. -/
theorem actor_first_match_endpoint_witness :
    strContains (endpoint_for c4_nodes c4_edges ⟨"p1", "CreateOrder", "Process", .arr []⟩)
      ("\n    " ++ lowerStr (safe_id "User") ++ "_id: int,  # from edge: " ++ "submits")
    ∧ strContains (endpoint_for c4_nodes c4_edges ⟨"p1", "CreateOrder", "Process", .arr []⟩)
      ("Triggered by '" ++ "User" ++ "' via '" ++ "submits" ++ "'") :=
  (actor_first_match_endpoint c4_nodes c4_edges ⟨"p1", "CreateOrder", "Process", .arr []⟩
    (by simp [c4_nodes]) rfl).2.1 "User" "submits" rfl

/-- Claim C5 (amended): edge endpoints are resolved by node id only — there
is no label fallback — and resolution drops nothing: the rendered edge list
has exactly one entry per edge.  An edge neither of whose endpoints matches
any node id is still rendered, with the constant `Unknown` marker in the
explanation graph text, while the code-generator fallback triple carries the
raw reference strings. -/
theorem edge_resolution_id_only (entities : List Node) (edges : List Edge) :
    (edges.map (edge_line entities)).length = edges.length
    ∧ (∀ e : Edge, (∀ n ∈ entities, n.id ≠ e.from_) → (∀ n ∈ entities, n.id ≠ e.to_) →
        edge_line entities e = "- Unknown --[" ++ e.label ++ "]--> " ++ "Unknown"
        ∧ fallback_triple entities e = (e.from_, e.label, e.to_)) := by
  refine ⟨List.length_map _ _, ?_⟩
  intro e hf ht
  have hff : entities.reverse.find? (fun n => n.id == e.from_) = none := by
    rw [List.find?_eq_none]
    intro n hn
    simpa using hf n (List.mem_reverse.mp hn)
  have hft : entities.reverse.find? (fun n => n.id == e.to_) = none := by
    rw [List.find?_eq_none]
    intro n hn
    simpa using ht n (List.mem_reverse.mp hn)
  constructor
  · unfold edge_line dict_get_label
    rw [hff, hft]
    rfl
  · unfold fallback_triple dict_get_node
    rw [hff, hft]
    rfl

/-- Claim C5 witness: with the single node `UserDB` (id `n1`), the edge
`UserDB → Orders` resolves at neither endpoint: it is rendered as
`Unknown --[stores]--> Unknown` in the graph text and keeps its raw strings
in the fallback triple. -/
theorem edge_resolution_id_only_witness :
    edge_line c5_nodes ⟨"UserDB", "Orders", "stores"⟩ =
      "- Unknown --[" ++ "stores" ++ "]--> " ++ "Unknown"
    ∧ fallback_triple c5_nodes ⟨"UserDB", "Orders", "stores"⟩ = ("UserDB", "stores", "Orders") :=
  (edge_resolution_id_only c5_nodes c5_edges).2 ⟨"UserDB", "Orders", "stores"⟩
    (by decide) (by decide)

/-- Claim C5 counterexample: the edge `⟨UserDB, n1, stores⟩` references the
node by its LABEL, not its id.  Resolution is by id only: the rendered line
shows `Unknown` for the `from` endpoint — neither resolved by exact label
match nor displaying the raw reference string, against both halves of the
claim's resolution rule. -/
theorem edges_text_label_not_resolved :
    (∃ n ∈ c5_nodes, n.label = "UserDB")
    ∧ edges_text c5_nodes c5_edges = "- Unknown --[stores]--> UserDB"
    ∧ pyIn "UserDB --[" (edges_text c5_nodes c5_edges) = false := by
  exact ⟨⟨⟨"n1", "UserDB", "Database", .arr []⟩, by simp [c5_nodes], rfl⟩, rfl, rfl⟩

set_option maxRecDepth 100000 in
/-- Claim C6 (amended): the Typed Mapper applies NO cardinality cap — the
emitted entity list has exactly the length of the accepted record list for
every input (nothing is truncated at 10), and the concrete 15 key-order
variants of one record deduplicate by content to a single node. -/
theorem parse_entities_no_cap :
    (∀ raw : String, (parse_entities_from_json raw).map List.length =
      (parse_json_objects raw entity_keys).map List.length)
    ∧ parse_entities_from_json raw15 = .ok [⟨"n1", "A", "Process", .arr []⟩] := by
  constructor
  · intro raw
    unfold parse_entities_from_json
    cases parse_json_objects raw entity_keys with
    | error e => rfl
    | ok l => simp [Except.map, List.length_map]
  · rfl

set_option maxRecDepth 100000 in
/-- Claim C6 counterexample: raw text holding 11 pairwise-distinct node
records yields 11 emitted entities — more than the claimed cap of 10;
nothing is dropped. -/
theorem parse_entities_eleven_uncapped :
    (parse_entities_from_json raw11).map List.length = .ok 11 ∧ 10 < 11 :=
  ⟨rfl, by omega⟩

set_option maxRecDepth 100000 in
/-- Claim C7 (amended): on a record embedded inside surrounding prose the
whole-payload parse fails and the balanced-block scan isolates and accepts
the record — but only when no brace occurs inside its string values (cf. the
counterexample, where a brace inside a string value derails the depth
tracking). -/
theorem scan_prose_embedded_extracted :
    json_loads (strip_json_markdown prose_ok) = .error .decode
    ∧ parse_entities_from_json prose_ok = .ok [⟨"n1", "Login", "Process", .arr []⟩] :=
  ⟨rfl, rfl⟩

set_option maxRecDepth 100000 in
/-- Claim C7 counterexample: the depth tracking counts braces inside JSON
string values too.  `prose_brace` embeds the record
`\x7b"id": "n1", "label": "a\x7db", "type": "Process"\x7d` in prose; the scan
cuts the candidate at the `\x7d` inside the label string, the truncated
candidate fails to parse, and the record is lost — extraction returns the
empty list instead of the record. -/
theorem scan_brace_in_string_lost :
    parse_entities_from_json prose_brace = .ok []
    ∧ pyIn "a\x7db" prose_brace = true :=
  ⟨rfl, rfl⟩

/-- Invariant of `_accept` over attempt 1: starting from a result list whose
signatures are pairwise distinct and recorded in `seen`, the fold preserves
both facts. -/
theorem acceptItems_inv (required : List String) : ∀ (vs : List JValue) (res : List JObj) (seen : List Sig),
    (∀ o ∈ res, sigOf required o ∈ seen) →
    res.Pairwise (fun a b => sigOf required a ≠ sigOf required b) →
    (∀ o ∈ (acceptItems required vs res seen).1, sigOf required o ∈ (acceptItems required vs res seen).2)
    ∧ (acceptItems required vs res seen).1.Pairwise (fun a b => sigOf required a ≠ sigOf required b) := by
  intro vs
  induction vs with
  | nil => intro res seen h1 h2; exact ⟨h1, h2⟩
  | cons v rest ih =>
    intro res seen h1 h2
    have hstep : ∀ kvs : JObj,
        (requiredSubset required kvs && !(decide (sigOf required kvs ∈ seen))) = true →
        (∀ o ∈ res ++ [kvs], sigOf required o ∈ seen ++ [sigOf required kvs])
        ∧ (res ++ [kvs]).Pairwise (fun a b => sigOf required a ≠ sigOf required b) := by
      intro kvs hc
      have hnotin : sigOf required kvs ∉ seen := by
        have hc2 := hc
        simp only [Bool.and_eq_true, Bool.not_eq_true', decide_eq_false_iff_not] at hc2
        exact hc2.2
      constructor
      · intro o ho
        rcases List.mem_append.mp ho with h | h
        · exact List.mem_append_left _ (h1 o h)
        · simp only [List.mem_singleton] at h
          subst h
          exact List.mem_append_right _ (List.mem_singleton.mpr rfl)
      · rw [List.pairwise_append]
        refine ⟨h2, List.pairwise_singleton _ _, ?_⟩
        intro a ha b hb
        simp only [List.mem_singleton] at hb
        subst hb
        intro hab
        exact hnotin (hab ▸ h1 a ha)
    cases v with
    | obj kvs =>
      by_cases hc : (requiredSubset required kvs && !(decide (sigOf required kvs ∈ seen))) = true
      · simp only [acceptItems, hc, if_true]
        exact ih (res ++ [kvs]) (seen ++ [sigOf required kvs]) (hstep kvs hc).1 (hstep kvs hc).2
      · simp only [acceptItems, hc, if_false]
        exact ih res seen h1 h2
    | null => exact ih res seen h1 h2
    | bool b => exact ih res seen h1 h2
    | int n => exact ih res seen h1 h2
    | float lx => exact ih res seen h1 h2
    | str s => exact ih res seen h1 h2
    | arr xs => exact ih res seen h1 h2

/-- The same invariant over the balanced-block scan of attempt 2: whenever it
returns a result list normally, the signatures of that list are pairwise
distinct. -/
theorem scanAccept_inv (required : List String) : ∀ (fuel : Nat) (cs : List Char) (res : List JObj) (seen : List Sig),
    (∀ o ∈ res, sigOf required o ∈ seen) →
    res.Pairwise (fun a b => sigOf required a ≠ sigOf required b) →
    ∀ l, scanAccept required fuel cs res seen = .ok l →
      l.Pairwise (fun a b => sigOf required a ≠ sigOf required b) := by
  intro fuel
  induction fuel with
  | zero =>
    intro cs res seen h1 h2 l hl
    simp only [scanAccept, Except.ok.injEq] at hl
    exact hl ▸ h2
  | succ f ih =>
    intro cs res seen h1 h2 l hl
    cases cs with
    | nil =>
      simp only [scanAccept, Except.ok.injEq] at hl
      exact hl ▸ h2
    | cons c cs1 =>
      by_cases hc : (c = '{')
      · rw [scanAccept, if_pos hc] at hl
        cases hjl : json_loads (String.mk (takeBlock (c :: cs1) 0 []).1) with
        | ok v =>
          rw [hjl] at hl
          cases v with
          | obj kvs =>
            cases hacc : (requiredSubset required kvs && !(decide (sigOf required kvs ∈ seen))) with
            | true =>
              simp only [hacc, if_true] at hl
              have hnotin : sigOf required kvs ∉ seen := by
                have hc2 := hacc
                simp only [Bool.and_eq_true, Bool.not_eq_true', decide_eq_false_iff_not] at hc2
                exact hc2.2
              refine ih _ (res ++ [kvs]) (seen ++ [sigOf required kvs]) ?_ ?_ l hl
              · intro o ho
                rcases List.mem_append.mp ho with h | h
                · exact List.mem_append_left _ (h1 o h)
                · simp only [List.mem_singleton] at h
                  subst h
                  exact List.mem_append_right _ (List.mem_singleton.mpr rfl)
              · rw [List.pairwise_append]
                refine ⟨h2, List.pairwise_singleton _ _, ?_⟩
                intro a ha b hb
                simp only [List.mem_singleton] at hb
                subst hb
                intro hab
                exact hnotin (hab ▸ h1 a ha)
            | false =>
              simp only [hacc, Bool.false_eq_true, if_false] at hl
              exact ih _ res seen h1 h2 l hl
          | null => exact ih _ res seen h1 h2 l hl
          | bool b => exact ih _ res seen h1 h2 l hl
          | int n => exact ih _ res seen h1 h2 l hl
          | float lx => exact ih _ res seen h1 h2 l hl
          | str s => exact ih _ res seen h1 h2 l hl
          | arr xs => exact ih _ res seen h1 h2 l hl
        | error e =>
          rw [hjl] at hl
          cases e with
          | decode => exact ih _ res seen h1 h2 l hl
          | recursion => exact absurd hl (by simp)
          | typeErr => exact absurd hl (by simp)
      · rw [scanAccept, if_neg hc] at hl
        exact ih cs1 res seen h1 h2 l hl

/-- Claim C8 (amended): the deduplication that exists lives in
`_parse_json_objects` and collapses records by the sorted
`(key, str(value))` signature over the required keys — first occurrence wins;
every record list it returns has pairwise-distinct signatures.  Identity by
id-or-label is NOT unique in general: two records with the same id but
different labels have different signatures and are both kept, and the unified
vision path performs no deduplication at all (cf. the counterexample). -/
theorem parse_objects_sig_distinct (raw : String) (required : List String) (l : List JObj)
    (h : parse_json_objects raw required = .ok l) :
    l.Pairwise (fun a b => sigOf required a ≠ sigOf required b) := by
  have hbase : ∀ o ∈ ([] : List JObj), sigOf required o ∈ ([] : List Sig) := by simp
  have hbase2 : ([] : List JObj).Pairwise (fun a b => sigOf required a ≠ sigOf required b) :=
    List.Pairwise.nil
  unfold parse_json_objects at h
  cases hjl : json_loads (strip_json_markdown raw) with
  | ok v =>
    rw [hjl] at h
    cases v with
    | arr items =>
      have hinv := acceptItems_inv required items [] [] hbase hbase2
      cases hres : (acceptItems required items [] []).1.isEmpty with
      | true =>
        simp only [hres, if_true] at h
        exact scanAccept_inv required _ _ _ _ hinv.1 hinv.2 l h
      | false =>
        simp only [hres, Bool.false_eq_true, if_false, Except.ok.injEq] at h
        exact h ▸ hinv.2
    | obj kvs =>
      cases hsub : requiredSubset required kvs with
      | true =>
        simp only [hsub, if_true, Except.ok.injEq] at h
        subst h
        exact List.pairwise_singleton _ _
      | false =>
        simp only [hsub, Bool.false_eq_true, if_false] at h
        exact scanAccept_inv required _ _ _ _ hbase hbase2 l h
    | null => exact scanAccept_inv required _ _ _ _ hbase hbase2 l h
    | bool b => exact scanAccept_inv required _ _ _ _ hbase hbase2 l h
    | int n => exact scanAccept_inv required _ _ _ _ hbase hbase2 l h
    | float lx => exact scanAccept_inv required _ _ _ _ hbase hbase2 l h
    | str s => exact scanAccept_inv required _ _ _ _ hbase hbase2 l h
  | error e =>
    rw [hjl] at h
    cases e with
    | decode => exact scanAccept_inv required _ _ _ _ hbase hbase2 l h
    | recursion => exact absurd h (by simp)
    | typeErr => exact absurd h (by simp)

set_option maxRecDepth 100000 in
/-- Claim C8 witness: on the 15 key-order variants the extractor returns the
single record, whose signature list is (trivially) pairwise distinct. -/
theorem parse_objects_sig_distinct_witness :
    ([[("id", JValue.str "n1"), ("label", JValue.str "A"), ("type", JValue.str "Process")]] :
        List JObj).Pairwise
      (fun a b => sigOf entity_keys a ≠ sigOf entity_keys b) :=
  parse_objects_sig_distinct raw15 entity_keys _ rfl

set_option maxRecDepth 100000 in
/-- Claim C8 counterexample: the unified vision path emits two DISTINCT nodes
(labels `A` and `B`) that share the identity `n1` — node identity is not
unique across the emitted node list, and no collapsing happens on this
path. -/
theorem vision_duplicate_identity :
    (vision_body dup_raw).map (fun p => p.1.map (fun n => n.id)) = .ok ["n1", "n1"]
    ∧ (vision_body dup_raw).map (fun p => p.1.map (fun n => n.label)) = .ok ["A", "B"] :=
  ⟨rfl, rfl⟩

set_option maxRecDepth 100000 in
/-- Claim C9 (amended): when the inference call succeeds but the raw text
yields zero usable records, the pipeline returns exactly the one placeholder
node and no edges and never raises — but the generated code is the FastAPI
service-skeleton section, NOT the fallback section: the placeholder's type is
`Process`, which triggers the skeleton section, and the fallback section is
emitted only when no other section fired. -/
theorem garbage_success_placeholder_skeleton :
    vision_body garbage_raw = .ok ([fallback_node], [])
    ∧ ([fallback_node] : List Node).length = 1
    ∧ pyIn "# FastAPI Project Skeleton  (auto-generated by Trace)"
        (code_gen [fallback_node] []) = true
    ∧ pyIn "async def unknown_component(" (code_gen [fallback_node] []) = true :=
  ⟨rfl, rfl, rfl, rfl⟩

set_option maxRecDepth 100000 in
/-- Claim C9 counterexample: on unparsable garbage with a successful
inference call the pipeline does produce the placeholder graph, but the
generated code does NOT consist of the fallback section — the fallback
marker is absent from the output. -/
theorem garbage_success_not_fallback_section :
    vision_body garbage_raw = .ok ([fallback_node], [])
    ∧ pyIn "No code template matched" (code_gen [fallback_node] []) = false :=
  ⟨rfl, rfl⟩

/-- Claim C10 (amended): there is no plain-text heuristic.  When the unified
parse finds no node, the robust scanner is tried on the raw text; when the
scanner also returns nothing, the single placeholder node is substituted —
and when the scanner returns records, they are used exactly as found, so the
placeholder path never fires while structured output is present. -/
theorem vision_last_resort_placeholder (raw : String) (d : JValue)
    (eds0 : List Edge) (l : List Node) (m : List Edge)
    (h1 : salvage_data (strip_json_markdown raw) = .ok d)
    (h2 : unified_nodes_edges d = .ok ([], eds0))
    (h3 : parse_entities_from_json raw = .ok l)
    (h4 : parse_edges_from_json raw = .ok m) :
    vision_body raw = .ok ((if l.isEmpty then [fallback_node] else l),
      (if eds0.isEmpty then m else eds0)) := by
  unfold vision_body
  simp only [h1, h2, List.isEmpty_nil, if_true, h3]
  cases he : eds0.isEmpty with
  | true =>
    have he2 : eds0 = [] := List.isEmpty_iff.mp he
    subst he2
    simp only [List.isEmpty_nil, if_true, h4]
  | false =>
    simp only [he, Bool.false_eq_true, if_false]

set_option maxRecDepth 100000 in
/-- Claim C10 witness: on the bulleted plain-text input every strategy finds
zero records and the placeholder is substituted. -/
theorem vision_last_resort_placeholder_witness :
    vision_body bullets_raw =
      .ok ((if ([] : List Node).isEmpty then [fallback_node] else []),
        (if ([] : List Edge).isEmpty then ([] : List Edge) else [])) :=
  vision_last_resort_placeholder bullets_raw (.obj []) [] [] [] rfl rfl rfl rfl

set_option maxRecDepth 100000 in
/-- Claim C10 counterexample: the bulleted lines `1. user database` /
`2. api interface` — which the claimed heuristic would turn into nodes typed
`Database` and `Interface` by keyword containment — produce no such node: the
stage substitutes the single `Unknown Component` placeholder of type
`Process`. -/
theorem bullet_lines_no_heuristic :
    vision_body bullets_raw = .ok ([fallback_node], [])
    ∧ fallback_node.label = "Unknown Component"
    ∧ fallback_node.type = "Process" :=
  ⟨rfl, rfl, rfl⟩
